import Mathlib

/-!
Verification of the reaper-mcp command client and tool facade.

The development shallowly embeds `src/reaper_mcp/client.py` and
`src/reaper_mcp/server.py`:

* Python result dicts become the `Json` inductive;
* Python exceptions become the `PyExc` structure (carrying the exception
  type name, the `isinstance` facts the source inspects, and the message);
* the `ReapyClient` instance state (`_auto_configured`, `_api_module`)
  becomes `ClientState`, extended with a ghost counter `configureCalls`
  that counts invocations of the external `reapy.configure_reaper()` step
  so that the at-most-once policy can be stated;
* the REAPER project manipulated through `reapy.reascript_api` becomes the
  explicit `ProjectState`, and each native call becomes a pure read or
  update of that state; tempo-map conversions are uninterpreted function
  fields of `TempoMap`, since REAPER's tempo map is external;
* Python floats are modelled as rationals.
-/

/-- Model of a Python/JSON value as produced by the client handlers. -/
inductive Json where
  | null
  | bool (b : Bool)
  | int (n : Int)
  | num (q : ℚ)
  | str (s : String)
  | arr (elems : List Json)
  | obj (fields : List (String × Json))

/-- Model of a Python exception: the type name, the two `isinstance` facts
that `send_command` and `_is_connection_error` inspect, and `str(e)`. -/
structure PyExc where
  typeName : String
  isRuntimeErrorInstance : Bool
  isOSErrorInstance : Bool
  msg : String

/-- Python `RuntimeError(m)`. -/
def RuntimeErr (m : String) : PyExc :=
  { typeName := "RuntimeError", isRuntimeErrorInstance := true,
    isOSErrorInstance := false, msg := m }

/-- Python `ValueError(m)`. -/
def ValueErr (m : String) : PyExc :=
  { typeName := "ValueError", isRuntimeErrorInstance := false,
    isOSErrorInstance := false, msg := m }

/-- Keys of the `ReapyClient._commands` table, in source order. -/
def commandNames : List String :=
  ["get_project_info", "get_track_info", "create_track", "delete_track",
   "delete_all_tracks", "set_track_name", "set_track_volume", "set_track_pan",
   "set_track_mute", "set_track_solo", "get_items", "create_midi_item",
   "delete_item", "duplicate_item", "set_item_name", "get_item_notes",
   "set_item_notes", "start_playback", "stop_playback", "set_tempo",
   "set_time_signature", "undo", "set_cursor_position", "get_loop_region",
   "set_loop_region", "add_fx", "remove_fx", "get_fx_parameters",
   "set_fx_parameter", "create_track_with_fx", "add_marker", "add_region",
   "get_markers"]

/-- Per-instance mutable state of `ReapyClient`: the `_auto_configured`
flag, whether `_api_module` is cached (not `None`), and a ghost counter of
`reapy.configure_reaper()` invocations used to state the once-only policy. -/
structure ClientState where
  auto_configured : Bool
  api_cached : Bool
  configureCalls : Nat

/-- State of a freshly constructed `ReapyClient` (`__init__`). -/
def initClient : ClientState :=
  { auto_configured := false, api_cached := false, configureCalls := 0 }

/-- Keyword arguments passed to a handler. -/
abbrev Params := List (String × Json)

/-- Environment abstracting what is outside `send_command` itself: the
outcome of running each handler body with given kwargs (handlers call into
REAPER, modelled separately), and whether the external
`reapy.configure_reaper()` call succeeds. -/
structure DispatchEnv where
  handler : String → Params → Except PyExc Json
  configureSucceeds : Bool

/-- Message raised for an unrecognized command name. -/
def unknownCommandMsg (c : String) : String := "Unknown command: " ++ c

/-- Message raised after a successful auto-configuration. -/
def restartMsg : String :=
  "Could not connect to REAPER. reapy has been auto-configured — please restart REAPER and try again."

/-- Message raised after a failed auto-configuration. -/
def manualMsg : String :=
  "Could not connect to REAPER and auto-configuration failed. Please run: python -c \"import reapy; reapy.configure_reaper()\" then restart REAPER."

/-- `ReapyClient._is_connection_error`. -/
def is_connection_error (e : PyExc) : Bool :=
  e.isOSErrorInstance || e.typeName == "DisabledDistAPIError"
    || e.typeName == "DisconnectedClientError"

/-- `ReapyClient._try_auto_configure`: sets the flag, invalidates the
cached module, invokes `reapy.configure_reaper()` (counted by the ghost
counter) and reports whether it succeeded. -/
def try_auto_configure (env : DispatchEnv) (s : ClientState) : Bool × ClientState :=
  (env.configureSucceeds,
   { auto_configured := true, api_cached := false,
     configureCalls := s.configureCalls + 1 })

/-- `ReapyClient.send_command`: table lookup, handler invocation with
`params or {}`, pass-through of `RuntimeError`, one-shot auto-configure on
a first connection-class error, wrapping of every other exception. -/
def send_command (env : DispatchEnv) (s : ClientState) (command_type : String)
    (params : Option Params) : Except PyExc Json × ClientState :=
  if commandNames.contains command_type then
    match env.handler command_type (params.getD []) with
    | .ok r => (.ok r, s)
    | .error e =>
      if e.isRuntimeErrorInstance then (.error e, s)
      else if !s.auto_configured && is_connection_error e then
        match try_auto_configure env s with
        | (true, s2) => (.error (RuntimeErr restartMsg), s2)
        | (false, s2) => (.error (RuntimeErr manualMsg), s2)
      else (.error (RuntimeErr e.msg), s)
  else (.error (RuntimeErr (unknownCommandMsg command_type)), s)

/-- Client state after a sequence of `send_command` calls. -/
def run_commands (env : DispatchEnv) (s : ClientState)
    (calls : List (String × Option Params)) : ClientState :=
  calls.foldl (fun st c => (send_command env st c.1 c.2).2) s

mutual

/-- Modelled from the spec: the external JSON serializer (`json.dumps`).
Serializes a `Json` value to text; the `indent` option of the real
serializer only affects whitespace and is not modelled. -/
def dumps : Json → String
  | .null => "null"
  | .bool b => if b then "true" else "false"
  | .int n => toString n
  | .num q => toString q
  | .str s => "\"" ++ s ++ "\""
  | .arr xs => "[" ++ dumpsArr xs ++ "]"
  | .obj fs => "\x7b" ++ dumpsObj fs ++ "\x7d"

/-- Serializes array elements, comma-separated. -/
def dumpsArr : List Json → String
  | [] => ""
  | [x] => dumps x
  | x :: y :: xs => dumps x ++ ", " ++ dumpsArr (y :: xs)

/-- Serializes object fields, comma-separated. -/
def dumpsObj : List (String × Json) → String
  | [] => ""
  | [(k, v)] => "\"" ++ k ++ "\": " ++ dumps v
  | (k, v) :: y :: xs => "\"" ++ k ++ "\": " ++ dumps v ++ ", " ++ dumpsObj (y :: xs)

end

/-- Translation of `server.py`'s `_call`: forwards to `send_command`,
serializes the result, and turns a `RuntimeError` into a serialized
single-key error object. Any non-`RuntimeError` exception would propagate
(the `except` clause only catches `RuntimeError`). -/
def call (env : DispatchEnv) (s : ClientState) (command_type : String)
    (params : Option Params) : Except PyExc String × ClientState :=
  match send_command env s command_type params with
  | (.ok result, s1) => (.ok (dumps result), s1)
  | (.error e, s1) =>
    if e.isRuntimeErrorInstance then
      (.ok (dumps (.obj [("error", .str e.msg)])), s1)
    else (.error e, s1)

/-- Every error produced by `send_command` is a `RuntimeError` instance:
pass-through errors satisfy the re-raise test, and all constructed errors
are `RuntimeErr`. -/
theorem send_command_error_runtime (env : DispatchEnv) (s : ClientState)
    (c : String) (p : Option Params) (e : PyExc) (s1 : ClientState)
    (h : send_command env s c p = (.error e, s1)) :
    e.isRuntimeErrorInstance = true := by
  unfold send_command at h
  split at h
  · split at h
    · exact absurd h (by simp)
    · split at h
      · rename_i hrt
        injection h with h1 h2
        injection h1 with h1
        subst h1
        exact hrt
      · split at h
        · split at h
          · injection h with h1 h2
            injection h1 with h1
            subst h1
            rfl
          · injection h with h1 h2
            injection h1 with h1
            subst h1
            rfl
        · injection h with h1 h2
          injection h1 with h1
          subst h1
          rfl
  · injection h with h1 h2
    injection h1 with h1
    subst h1
    rfl

/-- One `send_command` step either leaves the client state unchanged or,
only when the flag was unset, sets the flag and bumps the configure
counter by one. -/
theorem send_command_state_step (env : DispatchEnv) (s : ClientState)
    (c : String) (p : Option Params) :
    (send_command env s c p).2 = s ∨
      (s.auto_configured = false ∧
        (send_command env s c p).2 =
          { auto_configured := true, api_cached := false,
            configureCalls := s.configureCalls + 1 }) := by
  unfold send_command
  split
  · split
    · left; rfl
    · split
      · left; rfl
      · split
        · rename_i hc
          have hs : s.auto_configured = false := by
            by_contra hx
            simp [eq_true_of_ne_false hx] at hc
          split
          · rename_i s2 heq
            injection heq with hb hrec
            right; exact ⟨hs, hrec.symm⟩
          · rename_i s2 heq
            injection heq with hb hrec
            right; exact ⟨hs, hrec.symm⟩
        · left; rfl
  · left; rfl

/-- State after a `send_command` step from a state whose flag is already
set: always the same state. -/
theorem send_command_state_flag_set (env : DispatchEnv) (s : ClientState)
    (c : String) (p : Option Params) (hs : s.auto_configured = true) :
    (send_command env s c p).2 = s := by
  rcases send_command_state_step env s c p with h | ⟨h1, _⟩
  · exact h
  · rw [hs] at h1; cases h1

/-- Invariant tying the flag to the ghost configure counter. -/
def configuredAtMostOnce (s : ClientState) : Prop :=
  (s.auto_configured = false → s.configureCalls = 0) ∧ s.configureCalls ≤ 1

/-- The invariant is preserved by any sequence of `send_command` calls. -/
theorem run_commands_invariant (env : DispatchEnv)
    (calls : List (String × Option Params)) (s : ClientState)
    (h : configuredAtMostOnce s) :
    configuredAtMostOnce (run_commands env s calls) := by
  induction calls generalizing s with
  | nil => exact h
  | cons cp rest ih =>
    have hnext : configuredAtMostOnce ((send_command env s cp.1 cp.2).2) := by
      rcases send_command_state_step env s cp.1 cp.2 with hstep | ⟨hflag, hstep⟩
      · rw [hstep]; exact h
      · rw [hstep]
        refine ⟨fun hx => by simp at hx, ?_⟩
        have h0 := h.1 hflag
        simp [h0]
    exact ih _ hnext

/-- C1. For every command name registered in the client table,
`send_command` returns the handler's result mapping unmodified; for every
name not in the table it raises `RuntimeError("Unknown command: <name>")`. -/
theorem send_command_dispatch_correct (env : DispatchEnv) (s : ClientState)
    (params : Option Params) :
    (∀ (cmd : String) (r : Json),
        commandNames.contains cmd = true →
        env.handler cmd (params.getD []) = .ok r →
        send_command env s cmd params = (.ok r, s))
  ∧ (∀ cmd : String, commandNames.contains cmd = false →
        send_command env s cmd params =
          (.error (RuntimeErr ("Unknown command: " ++ cmd)), s)) := by
  constructor
  · intro cmd r hmem hh
    have hm : cmd ∈ commandNames := by simpa using hmem
    simp [send_command, hm, hh]
  · intro cmd hmem
    have hm : cmd ∉ commandNames := by simpa using hmem
    simp [send_command, hm, unknownCommandMsg]

/-- Witness for C1 on a concrete environment: a registered command returns
the handler's object, and an unregistered name yields the unknown-command
error. -/
def okEnv : DispatchEnv :=
  { handler := fun _ _ => .ok (.obj [("ok", .bool true)]), configureSucceeds := true }

theorem send_command_dispatch_correct_witness :
    send_command okEnv initClient "get_project_info" (some []) =
      (.ok (.obj [("ok", .bool true)]), initClient) ∧
    send_command okEnv initClient "bogus" (some []) =
      (.error (RuntimeErr ("Unknown command: " ++ "bogus")), initClient) :=
  ⟨(send_command_dispatch_correct okEnv initClient (some [])).1
      "get_project_info" (.obj [("ok", .bool true)]) (by decide) rfl,
   (send_command_dispatch_correct okEnv initClient (some [])).2 "bogus" (by decide)⟩

/-- C2. A handler raising a `RuntimeError` instance has it re-raised
unchanged; a handler raising any other exception type, when the
auto-configure path does not apply, gets wrapped into a `RuntimeError`
carrying exactly the original message text. -/
theorem send_command_error_wrapping (env : DispatchEnv) (s : ClientState)
    (params : Option Params) (cmd : String) (e : PyExc)
    (hmem : commandNames.contains cmd = true)
    (hh : env.handler cmd (params.getD []) = .error e) :
    (e.isRuntimeErrorInstance = true →
        send_command env s cmd params = (.error e, s))
  ∧ (e.isRuntimeErrorInstance = false →
      s.auto_configured = true ∨ is_connection_error e = false →
      send_command env s cmd params = (.error (RuntimeErr e.msg), s)) := by
  have hm : cmd ∈ commandNames := by simpa using hmem
  constructor
  · intro hrt
    simp [send_command, hm, hh, hrt]
  · intro hrt hside
    rcases hside with hflag | hconn
    · simp [send_command, hm, hh, hrt, hflag]
    · simp [send_command, hm, hh, hrt, hconn]

/-- Witness environments for the error-path claims. -/
def runtimeErrEnv : DispatchEnv :=
  { handler := fun _ _ => .error (RuntimeErr "boom"), configureSucceeds := true }

def valueErrEnv : DispatchEnv :=
  { handler := fun _ _ => .error (ValueErr "bad index"), configureSucceeds := true }

theorem send_command_error_wrapping_witness :
    send_command runtimeErrEnv initClient "undo" none =
      (.error (RuntimeErr "boom"), initClient) ∧
    send_command valueErrEnv initClient "undo" none =
      (.error (RuntimeErr "bad index"), initClient) :=
  ⟨(send_command_error_wrapping runtimeErrEnv initClient none "undo"
      (RuntimeErr "boom") (by decide) rfl).1 rfl,
   (send_command_error_wrapping valueErrEnv initClient none "undo"
      (ValueErr "bad index") (by decide) rfl).2 rfl (Or.inr (by decide))⟩

/-- C3. The external auto-configure step runs at most once per client
instance: from a fresh client, any call sequence performs at most one
`configure_reaper` invocation; the first connection-class handler error
with the flag unset invalidates the cached handle, sets the flag, runs
auto-configure and raises the restart (or manual-configuration) message;
with the flag already set, a connection-class error skips the path and
surfaces the raw original message. -/
theorem auto_configure_at_most_once (env : DispatchEnv) :
    (∀ calls : List (String × Option Params),
        (run_commands env initClient calls).configureCalls ≤ 1)
  ∧ (∀ (s : ClientState) (cmd : String) (params : Option Params) (e : PyExc),
        s.auto_configured = false →
        commandNames.contains cmd = true →
        env.handler cmd (params.getD []) = .error e →
        e.isRuntimeErrorInstance = false →
        is_connection_error e = true →
        send_command env s cmd params =
          (.error (RuntimeErr
              (if env.configureSucceeds then restartMsg else manualMsg)),
           { auto_configured := true, api_cached := false,
             configureCalls := s.configureCalls + 1 }))
  ∧ (∀ (s : ClientState) (cmd : String) (params : Option Params) (e : PyExc),
        s.auto_configured = true →
        commandNames.contains cmd = true →
        env.handler cmd (params.getD []) = .error e →
        e.isRuntimeErrorInstance = false →
        send_command env s cmd params = (.error (RuntimeErr e.msg), s)) := by
  refine ⟨?_, ?_, ?_⟩
  · intro calls
    exact (run_commands_invariant env calls initClient
      ⟨fun _ => rfl, by simp [initClient]⟩).2
  · intro s cmd params e hflag hmem hh hrt hconn
    have hm : cmd ∈ commandNames := by simpa using hmem
    cases hc : env.configureSucceeds <;>
      simp [send_command, hm, hh, hrt, hflag, hconn, try_auto_configure, hc]
  · intro s cmd params e hflag hmem hh hrt
    have hm : cmd ∈ commandNames := by simpa using hmem
    simp [send_command, hm, hh, hrt, hflag]

/-- Witness environment raising a connection-class error. -/
def connExc : PyExc :=
  { typeName := "DisabledDistAPIError", isRuntimeErrorInstance := false,
    isOSErrorInstance := false, msg := "lost" }

def connErrEnv : DispatchEnv :=
  { handler := fun _ _ => .error connExc, configureSucceeds := true }

theorem auto_configure_at_most_once_witness :
    (run_commands connErrEnv initClient
        [("undo", none), ("undo", none)]).configureCalls ≤ 1 ∧
    send_command connErrEnv initClient "undo" none =
      (.error (RuntimeErr restartMsg),
       { auto_configured := true, api_cached := false, configureCalls := 1 }) ∧
    send_command connErrEnv
        { auto_configured := true, api_cached := false, configureCalls := 1 }
        "undo" none =
      (.error (RuntimeErr "lost"),
       { auto_configured := true, api_cached := false, configureCalls := 1 }) := by
  have h := auto_configure_at_most_once connErrEnv
  refine ⟨h.1 _, ?_, ?_⟩
  · have h2 := h.2.1 initClient "undo" none connExc rfl (by decide) rfl rfl (by decide)
    simpa using h2
  · exact h.2.2 _ "undo" none connExc rfl (by decide) rfl rfl

/-- C7. The facade boundary never raises: a successful dispatch is
serialized as text, and every `RuntimeError` failure is serialized as the
single-key object with the error message. -/
theorem facade_returns_text_never_raises (env : DispatchEnv) (s : ClientState)
    (cmd : String) (params : Option Params) :
    (∀ (r : Json) (s1 : ClientState),
        send_command env s cmd params = (.ok r, s1) →
        call env s cmd params = (.ok (dumps r), s1))
  ∧ (∀ (e : PyExc) (s1 : ClientState),
        send_command env s cmd params = (.error e, s1) →
        call env s cmd params =
          (.ok (dumps (.obj [("error", .str e.msg)])), s1))
  ∧ (∃ (out : String) (s1 : ClientState),
        call env s cmd params = (.ok out, s1)) := by
  have hok : ∀ (r : Json) (s1 : ClientState),
      send_command env s cmd params = (.ok r, s1) →
      call env s cmd params = (.ok (dumps r), s1) := by
    intro r s1 h
    simp [call, h]
  have herr : ∀ (e : PyExc) (s1 : ClientState),
      send_command env s cmd params = (.error e, s1) →
      call env s cmd params = (.ok (dumps (.obj [("error", .str e.msg)])), s1) := by
    intro e s1 h
    have hrt := send_command_error_runtime env s cmd params e s1 h
    simp [call, h, hrt]
  refine ⟨hok, herr, ?_⟩
  rcases hsc : send_command env s cmd params with ⟨res, s1⟩
  cases res with
  | ok r => exact ⟨dumps r, s1, hok r s1 hsc⟩
  | error e => exact ⟨dumps (.obj [("error", .str e.msg)]), s1, herr e s1 hsc⟩

theorem facade_returns_text_never_raises_witness :
    call runtimeErrEnv initClient "undo" none =
      (.ok (dumps (.obj [("error", .str "boom")])), initClient) ∧
    call okEnv initClient "undo" none =
      (.ok (dumps (.obj [("ok", .bool true)])), initClient) :=
  ⟨(facade_returns_text_never_raises runtimeErrEnv initClient "undo" none).2.1
      (RuntimeErr "boom") initClient rfl,
   (facade_returns_text_never_raises okEnv initClient "undo" none).1
      (.obj [("ok", .bool true)]) initClient rfl⟩

/-- A MIDI note event as stored in a take, with the fields passed to
`MIDI_InsertNote` / returned by `MIDI_GetNote`. -/
structure MidiNote where
  selected : Bool
  muted : Bool
  startPpq : ℚ
  endPpq : ℚ
  chan : Int
  pitch : Int
  vel : Int

/-- The active take of a media item. -/
structure Take where
  name : String
  isMidi : Bool
  notes : List MidiNote

/-- A media item on a track. -/
structure Item where
  position : ℚ
  length : ℚ
  activeTake : Option Take

/-- A REAPER track. -/
structure Track where
  name : String
  volume : ℚ
  pan : ℚ
  mute : Bool
  solo : Bool
  items : List Item

/-- The project tempo map, kept abstract: the four conversion primitives
the client composes (`TimeMap2_QNToTime`, `TimeMap2_timeToQN`,
`MIDI_GetPPQPosFromProjTime`, `MIDI_GetProjTimeFromPPQPos`). REAPER's ppq
conversions are take-relative; the model uses one mapping uniformly. -/
structure TempoMap where
  qnToTime : ℚ → ℚ
  timeToQN : ℚ → ℚ
  ppqFromTime : ℚ → ℚ
  timeFromPpq : ℚ → ℚ

/-- The state of the external REAPER project that the handlers read and
mutate through `reapy.reascript_api`. -/
structure ProjectState where
  tracks : List Track
  tempo : ℚ
  bpi : ℚ
  sigDenominator : Int
  playState : Nat
  cursorSec : ℚ
  tempoMap : TempoMap

/-- Replaces the element at an index, leaving the list unchanged when the
index is out of range. -/
def modifyIdx {α : Type} : List α → Nat → (α → α) → List α
  | [], _, _ => []
  | a :: as, 0, f => f a :: as
  | a :: as, n + 1, f => a :: modifyIdx as n f

theorem modifyIdx_length {α : Type} (l : List α) (n : Nat) (f : α → α) :
    (modifyIdx l n f).length = l.length := by
  induction l generalizing n with
  | nil => rfl
  | cons a as ih =>
    cases n with
    | zero => rfl
    | succ m => simp [modifyIdx, ih]

theorem getElem?_modifyIdx_self {α : Type} (l : List α) (n : Nat) (f : α → α) :
    (modifyIdx l n f)[n]? = (l[n]?).map f := by
  induction l generalizing n with
  | nil => simp [modifyIdx]
  | cons a as ih =>
    cases n with
    | zero => simp [modifyIdx]
    | succ m => simpa [modifyIdx] using ih m

/-- A Python loop `for i in range(count - 1, -1, -1)` that deletes the
element fetched at the current index `i` on each iteration. -/
def deleteLoop {α : Type} : List α → Nat → List α
  | l, 0 => l
  | l, i + 1 => deleteLoop (l.eraseIdx i) i

theorem deleteLoop_all {α : Type} :
    ∀ (n : Nat) (l : List α), l.length = n → deleteLoop l n = [] := by
  intro n
  induction n with
  | zero =>
    intro l hl
    cases l with
    | nil => rfl
    | cons a as => cases hl
  | succ m ih =>
    intro l hl
    show deleteLoop (l.eraseIdx m) m = []
    apply ih
    rw [List.length_eraseIdx]
    simp [hl]

/-- Python `int()` applied to a rational-modelled float: truncation toward
zero. -/
def pyInt (q : ℚ) : Int := q.num.tdiv (q.den : Int)

/-- `RPR.CountTracks(0)`. -/
def CountTracks (s : ProjectState) : Int := s.tracks.length

/-- Items of the track at a given index (`CountTrackMediaItems` /
`GetTrackMediaItem` read from this list). -/
def trackItems (s : ProjectState) (t : Nat) : List Item :=
  ((s.tracks[t]?).map Track.items).getD []

/-- Active take of the item at the given indices (`GetActiveTake`). -/
def itemTake (s : ProjectState) (t i : Nat) : Option Take :=
  ((trackItems s t)[i]?).bind Item.activeTake

/-- `GetMediaTrackInfo_Value(track, "D_VOL")`. -/
def trackVolume (s : ProjectState) (t : Nat) : ℚ :=
  ((s.tracks[t]?).map Track.volume).getD 0

/-- `GetMediaTrackInfo_Value(track, "D_PAN")`. -/
def trackPan (s : ProjectState) (t : Nat) : ℚ :=
  ((s.tracks[t]?).map Track.pan).getD 0

/-- `ReapyClient._beats_to_time`: `TimeMap2_QNToTime`. -/
def beats_to_time (s : ProjectState) (b : ℚ) : ℚ := s.tempoMap.qnToTime b

/-- `ReapyClient._time_to_beats`: `TimeMap2_timeToQN`. -/
def time_to_beats (s : ProjectState) (t : ℚ) : ℚ := s.tempoMap.timeToQN t

/-- `ReapyClient._ppq_to_beats`: project time from ppq, then to beats. -/
def ppq_to_beats (s : ProjectState) (p : ℚ) : ℚ :=
  time_to_beats s (s.tempoMap.timeFromPpq p)

/-- `ReapyClient._beats_to_ppq`: beats to project time, then to ppq. -/
def beats_to_ppq (s : ProjectState) (b : ℚ) : ℚ :=
  s.tempoMap.ppqFromTime (beats_to_time s b)

/-- `ReapyClient._get_track`: validates the index against the current
track count; the returned native track handle is modelled by the
validated index. -/
def get_track (s : ProjectState) (track_index : Int) : Except PyExc Nat :=
  if track_index < 0 ∨ CountTracks s ≤ track_index then
    .error (ValueErr ("Track index " ++ toString track_index ++
      " out of range (0-" ++ toString (CountTracks s - 1) ++ ")"))
  else .ok track_index.toNat

/-- `ReapyClient._get_item`: validates both indices; the item handle is
modelled by the validated index pair. -/
def get_item (s : ProjectState) (track_index item_index : Int) :
    Except PyExc (Nat × Nat) :=
  match get_track s track_index with
  | .error e => .error e
  | .ok t =>
    if item_index < 0 ∨ ((trackItems s t).length : Int) ≤ item_index then
      .error (ValueErr ("Item index " ++ toString item_index ++
        " out of range (0-" ++ toString (((trackItems s t).length : Int) - 1) ++ ")"))
    else .ok (t, item_index.toNat)

/-- `ReapyClient._get_active_take`: fails when the item has no active
take; the take handle is modelled by the index pair plus the take value. -/
def get_active_take (s : ProjectState) (track_index item_index : Int) :
    Except PyExc (Nat × Nat × Take) :=
  match get_item s track_index item_index with
  | .error e => .error e
  | .ok (t, i) =>
    match itemTake s t i with
    | none => .error (ValueErr ("No active take on item " ++
        toString item_index ++ ", track " ++ toString track_index))
    | some tk => .ok (t, i, tk)

/-- `ReapyClient._set_track_volume`: clamps to [0, 4], stores, and returns
the value read back from the track. -/
def set_track_volume (s : ProjectState) (track_index : Int) (volume : ℚ) :
    Except PyExc (Json × ProjectState) :=
  match get_track s track_index with
  | .error e => .error e
  | .ok t =>
    let v := max 0 (min 4 volume)
    let s1 := { s with tracks := modifyIdx s.tracks t (fun tr => { tr with volume := v }) }
    .ok (.obj [("volume", .num (trackVolume s1 t))], s1)

/-- `ReapyClient._set_track_pan`: clamps to [-1, 1], stores, and returns
the value read back from the track. -/
def set_track_pan (s : ProjectState) (track_index : Int) (pan : ℚ) :
    Except PyExc (Json × ProjectState) :=
  match get_track s track_index with
  | .error e => .error e
  | .ok t =>
    let p := max (-1) (min 1 pan)
    let s1 := { s with tracks := modifyIdx s.tracks t (fun tr => { tr with pan := p }) }
    .ok (.obj [("pan", .num (trackPan s1 t))], s1)

/-- `ReapyClient._set_tempo`: clamps to [1, 960], stores via
`SetCurrentBPM`, and returns `Master_GetTempo()`. -/
def set_tempo (s : ProjectState) (tempo : ℚ) : Json × ProjectState :=
  let t := max 1 (min 960 tempo)
  let s1 := { s with tempo := t }
  (.obj [("tempo", .num s1.tempo)], s1)

/-- `ReapyClient._delete_all_tracks`: reads the count once, then deletes
from the highest index down to 0, returning the count and zero remaining. -/
def delete_all_tracks (s : ProjectState) : Json × ProjectState :=
  let count := s.tracks.length
  let s1 := { s with tracks := deleteLoop s.tracks count }
  (.obj [("deleted", .int (count : Int)), ("remaining_tracks", .int 0)], s1)

/-- `ReapyClient._get_project_info`: tempo and numerator from
`GetProjectTimeSignature2` (which does not expose the denominator — the
handler hardcodes 4), play/record flags from the `GetPlayState` bitmask,
cursor position converted to beats. -/
def get_project_info (s : ProjectState) : Json :=
  .obj [("tempo", .num s.tempo),
        ("signature_numerator", .int (pyInt s.bpi)),
        ("signature_denominator", .int 4),
        ("track_count", .int (CountTracks s)),
        ("is_playing", .bool (s.playState &&& 1 != 0)),
        ("is_recording", .bool (s.playState &&& 4 != 0)),
        ("cursor_position", .num (time_to_beats s s.cursorSec))]

/-- Looks a key up in a serialized-object value. -/
def objLookup (j : Json) (key : String) : Option Json :=
  match j with
  | .obj fs => (fs.find? (fun kv => kv.1 == key)).map Prod.snd
  | _ => none

/-- A note mapping passed to `set_item_notes`: each field is optional, the
handler fills defaults with `dict.get`. -/
structure NoteInput where
  pitch : Option Int
  start_time : Option ℚ
  duration : Option ℚ
  velocity : Option Int
  mute : Option Bool

/-- Builds the `MIDI_InsertNote` arguments from one note mapping:
defaults `pitch=60`, `start_time=0.0`, `duration=0.5`, `velocity=100`,
`mute=False`, beat positions converted to ppq. -/
def fillNote (s : ProjectState) (n : NoteInput) : MidiNote :=
  { selected := false,
    muted := n.mute.getD false,
    startPpq := beats_to_ppq s (n.start_time.getD 0),
    endPpq := beats_to_ppq s (n.start_time.getD 0 + n.duration.getD (1/2)),
    chan := 0,
    pitch := n.pitch.getD 60,
    vel := n.velocity.getD 100 }

/-- Ordering used by the model of `MIDI_Sort`: events sorted by start
position (stable). Modelled from the spec: `MIDI_Sort` is a native call. -/
def midiLe (a b : MidiNote) : Bool := a.startPpq ≤ b.startPpq

def takeWithNotes (ns : List MidiNote) (tk : Take) : Take := { tk with notes := ns }

def itemWithNotes (ns : List MidiNote) (it : Item) : Item :=
  { it with activeTake := it.activeTake.map (takeWithNotes ns) }

def trackWithItems (i : Nat) (ns : List MidiNote) (tr : Track) : Track :=
  { tr with items := modifyIdx tr.items i (itemWithNotes ns) }

/-- Writes a new note list into the take addressed by the index pair. -/
def updateTakeNotes (s : ProjectState) (t i : Nat) (ns : List MidiNote) : ProjectState :=
  { s with tracks := modifyIdx s.tracks t (trackWithItems i ns) }

/-- `ReapyClient._set_item_notes`: requires a MIDI take; in replace mode
deletes the existing notes from the highest index down; converts each
mapping with defaults, inserts them in order without sorting, then
`MIDI_Sort`s the take; returns the number of notes written. -/
def set_item_notes (s : ProjectState) (track_index item_index : Int)
    (notes : List NoteInput) (append : Bool) : Except PyExc (Json × ProjectState) :=
  match get_active_take s track_index item_index with
  | .error e => .error e
  | .ok (t, i, tk) =>
    if !tk.isMidi then .error (ValueErr "Item does not contain MIDI data")
    else
      let base := if !append then deleteLoop tk.notes tk.notes.length else tk.notes
      let inserted := notes.foldl (fun acc n => acc ++ [fillNote s n]) base
      let sorted := inserted.mergeSort midiLe
      .ok (.obj [("notes_set", .int (notes.length : Int))],
           updateTakeNotes s t i sorted)

/-- A note as returned by `get_item_notes`. -/
structure NoteOut where
  pitch : Int
  start_time : ℚ
  duration : ℚ
  velocity : Int
  mute : Bool

/-- Reads one stored note back: ppq endpoints to beats, duration as their
difference. -/
def readNote (s : ProjectState) (nt : MidiNote) : NoteOut :=
  { pitch := nt.pitch,
    start_time := ppq_to_beats s nt.startPpq,
    duration := ppq_to_beats s nt.endPpq - ppq_to_beats s nt.startPpq,
    velocity := nt.vel,
    mute := nt.muted }

/-- Serializes one read-back note to its result dict. -/
def noteOutJson (n : NoteOut) : Json :=
  .obj [("pitch", .int n.pitch), ("start_time", .num n.start_time),
        ("duration", .num n.duration), ("velocity", .int n.velocity),
        ("mute", .bool n.mute)]

/-- `ReapyClient._get_item_notes`: requires a MIDI take; reads every note
of the active take in stored order. -/
def get_item_notes (s : ProjectState) (track_index item_index : Int) :
    Except PyExc Json :=
  match get_active_take s track_index item_index with
  | .error e => .error e
  | .ok (_, _, tk) =>
    if !tk.isMidi then .error (ValueErr "Item does not contain MIDI data")
    else .ok (.obj [("notes", .arr ((tk.notes.map (readNote s)).map noteOutJson))])

/-- Concrete tempo map whose conversion primitives are mutually inverse. -/
def idTempoMap : TempoMap :=
  { qnToTime := id, timeToQN := id, ppqFromTime := id, timeFromPpq := id }

def demoTake : Take := { name := "take", isMidi := true, notes := [] }

def demoItem : Item := { position := 0, length := 4, activeTake := some demoTake }

def demoTrack : Track :=
  { name := "Track 1", volume := 1, pan := 0, mute := false, solo := false,
    items := [demoItem] }

/-- Concrete two-track project used by the witnesses. -/
def demoProject : ProjectState :=
  { tracks := [demoTrack, demoTrack], tempo := 120, bpi := 4,
    sigDenominator := 8, playState := 1, cursorSec := 0, tempoMap := idTempoMap }

def fiveTrackProject : ProjectState :=
  { demoProject with
    tracks := [demoTrack, demoTrack, demoTrack, demoTrack, demoTrack] }

/-- Project state with one track's volume replaced. -/
def withVolume (s : ProjectState) (t : Nat) (w : ℚ) : ProjectState :=
  { s with tracks := modifyIdx s.tracks t (fun x => { x with volume := w }) }

/-- Project state with one track's pan replaced. -/
def withPan (s : ProjectState) (t : Nat) (w : ℚ) : ProjectState :=
  { s with tracks := modifyIdx s.tracks t (fun x => { x with pan := w }) }

/-- C5. `set_track_volume` stores its input clamped to [0, 4] and returns
it, `set_track_pan` clamps to [-1, 1], `set_tempo` clamps to [1, 960];
inputs already inside the range are stored unchanged. -/
theorem set_values_clamped (s : ProjectState) (ti : Int) (v p tmp : ℚ)
    (hti0 : 0 ≤ ti) (hti1 : ti < CountTracks s) :
    (∃ s1, set_track_volume s ti v =
        .ok (.obj [("volume", .num (max 0 (min 4 v)))], s1) ∧
        trackVolume s1 ti.toNat = max 0 (min 4 v))
  ∧ (∃ s1, set_track_pan s ti p =
        .ok (.obj [("pan", .num (max (-1) (min 1 p)))], s1) ∧
        trackPan s1 ti.toNat = max (-1) (min 1 p))
  ∧ (set_tempo s tmp).2.tempo = max 1 (min 960 tmp)
  ∧ (set_tempo s tmp).1 = .obj [("tempo", .num (max 1 (min 960 tmp)))]
  ∧ (0 ≤ v → v ≤ 4 →
      ∃ s1, set_track_volume s ti v = .ok (.obj [("volume", .num v)], s1))
  ∧ (-1 ≤ p → p ≤ 1 →
      ∃ s1, set_track_pan s ti p = .ok (.obj [("pan", .num p)], s1))
  ∧ (1 ≤ tmp → tmp ≤ 960 → (set_tempo s tmp).2.tempo = tmp) := by
  have hcond : ¬(ti < 0 ∨ CountTracks s ≤ ti) := by omega
  have hlen : ti.toNat < s.tracks.length := by
    unfold CountTracks at hti1
    omega
  obtain ⟨tr, htr⟩ : ∃ tr, s.tracks[ti.toNat]? = some tr :=
    ⟨s.tracks[ti.toNat], List.getElem?_eq_getElem hlen⟩
  have hvol : ∀ w : ℚ, ∃ s1, set_track_volume s ti w =
      .ok (.obj [("volume", .num (max 0 (min 4 w)))], s1) ∧
      trackVolume s1 ti.toNat = max 0 (min 4 w) := by
    intro w
    refine ⟨withVolume s ti.toNat (max 0 (min 4 w)), ?_, ?_⟩
    · unfold set_track_volume get_track
      rw [if_neg hcond]
      simp [withVolume, trackVolume, getElem?_modifyIdx_self, htr]
    · simp [withVolume, trackVolume, getElem?_modifyIdx_self, htr]
  have hpan : ∀ w : ℚ, ∃ s1, set_track_pan s ti w =
      .ok (.obj [("pan", .num (max (-1) (min 1 w)))], s1) ∧
      trackPan s1 ti.toNat = max (-1) (min 1 w) := by
    intro w
    refine ⟨withPan s ti.toNat (max (-1) (min 1 w)), ?_, ?_⟩
    · unfold set_track_pan get_track
      rw [if_neg hcond]
      simp [withPan, trackPan, getElem?_modifyIdx_self, htr]
    · simp [withPan, trackPan, getElem?_modifyIdx_self, htr]
  refine ⟨hvol v, hpan p, rfl, rfl, ?_, ?_, ?_⟩
  · intro h1 h2
    obtain ⟨s1, hs1, _⟩ := hvol v
    rw [min_eq_right h2, max_eq_right h1] at hs1
    exact ⟨s1, hs1⟩
  · intro h1 h2
    obtain ⟨s1, hs1, _⟩ := hpan p
    rw [min_eq_right h2, max_eq_right h1] at hs1
    exact ⟨s1, hs1⟩
  · intro h1 h2
    show max 1 (min 960 tmp) = tmp
    rw [min_eq_right h2, max_eq_right h1]

theorem set_values_clamped_witness :
    max (0 : ℚ) (min 4 10) = 4 ∧
    max (0 : ℚ) (min 4 (-1)) = 0 ∧
    max (-1 : ℚ) (min 1 5) = 1 ∧
    max (1 : ℚ) (min 960 2000) = 960 ∧
    ((∃ s1, set_track_volume demoProject 0 10 =
        .ok (.obj [("volume", .num (max 0 (min 4 10)))], s1) ∧
        trackVolume s1 0 = max 0 (min 4 10))
     ∧ (∃ s1, set_track_pan demoProject 0 5 =
        .ok (.obj [("pan", .num (max (-1) (min 1 5)))], s1) ∧
        trackPan s1 0 = max (-1) (min 1 5))
     ∧ (set_tempo demoProject 2000).2.tempo = max 1 (min 960 2000)
     ∧ (set_tempo demoProject 2000).1 = .obj [("tempo", .num (max 1 (min 960 2000)))]
     ∧ ((0 : ℚ) ≤ 10 → (10 : ℚ) ≤ 4 →
        ∃ s1, set_track_volume demoProject 0 10 = .ok (.obj [("volume", .num 10)], s1))
     ∧ ((-1 : ℚ) ≤ 5 → (5 : ℚ) ≤ 1 →
        ∃ s1, set_track_pan demoProject 0 5 = .ok (.obj [("pan", .num 5)], s1))
     ∧ ((1 : ℚ) ≤ 2000 → (2000 : ℚ) ≤ 960 → (set_tempo demoProject 2000).2.tempo = 2000)) :=
  ⟨by decide, by decide, by decide, by decide,
   set_values_clamped demoProject 0 10 5 2000 (by decide) (by decide)⟩

/-- C6. A track index that is negative or at least the current track count
makes `_get_track` (and through it every track operation, here shown for
`set_track_volume`) fail with a `ValueError` naming the index and the
valid range `0..count-1`; an in-range index is accepted. The count is read
from the current state on every call. -/
theorem track_index_validated (s : ProjectState) (ti : Int) :
    (ti < 0 ∨ CountTracks s ≤ ti →
      get_track s ti = .error (ValueErr ("Track index " ++ toString ti ++
        " out of range (0-" ++ toString (CountTracks s - 1) ++ ")")))
  ∧ (0 ≤ ti → ti < CountTracks s → get_track s ti = .ok ti.toNat)
  ∧ (∀ v : ℚ, ti < 0 ∨ CountTracks s ≤ ti →
      set_track_volume s ti v = .error (ValueErr ("Track index " ++ toString ti ++
        " out of range (0-" ++ toString (CountTracks s - 1) ++ ")"))) := by
  refine ⟨?_, ?_, ?_⟩
  · intro h
    unfold get_track
    rw [if_pos h]
  · intro h0 h1
    unfold get_track
    rw [if_neg (by omega)]
  · intro v h
    unfold set_track_volume get_track
    rw [if_pos h]

theorem track_index_validated_witness :
    get_track demoProject 2 = .error (ValueErr "Track index 2 out of range (0-1)") ∧
    get_track demoProject 0 = .ok 0 ∧
    set_track_volume demoProject (-1) 1 =
      .error (ValueErr "Track index -1 out of range (0-1)") :=
  ⟨(track_index_validated demoProject 2).1 (Or.inr (by decide)),
   (track_index_validated demoProject 0).2.1 (by decide) (by decide),
   (track_index_validated demoProject (-1)).2.2 1 (Or.inl (by decide))⟩

/-- C8. `delete_all_tracks` deletes every track, iterating from the
highest index down (the loop is `deleteLoop`), leaves zero tracks, and
returns the original count as `deleted` and `remaining_tracks = 0`; in
particular on a 5-track project it returns deleted = 5. -/
theorem delete_all_tracks_result (s : ProjectState) :
    delete_all_tracks s =
      (.obj [("deleted", .int (s.tracks.length : Int)), ("remaining_tracks", .int 0)],
       { s with tracks := [] })
  ∧ (s.tracks.length = 5 →
      delete_all_tracks s =
        (.obj [("deleted", .int 5), ("remaining_tracks", .int 0)],
         { s with tracks := [] })) := by
  have h1 : delete_all_tracks s =
      (.obj [("deleted", .int (s.tracks.length : Int)), ("remaining_tracks", .int 0)],
       { s with tracks := [] }) := by
    simp only [delete_all_tracks, deleteLoop_all s.tracks.length s.tracks rfl]
  refine ⟨h1, fun h5 => ?_⟩
  rw [h1, h5]
  norm_num

theorem delete_all_tracks_result_witness :
    delete_all_tracks fiveTrackProject =
      (.obj [("deleted", .int 5), ("remaining_tracks", .int 0)],
       { fiveTrackProject with tracks := [] }) :=
  (delete_all_tracks_result fiveTrackProject).2 rfl

/-- C9. `get_project_info` reports `signature_denominator = 4` regardless
of the project's actual denominator, and computes `is_playing` and
`is_recording` by testing the play-state bitmask against 1 and 4. -/
theorem project_info_denominator_and_flags (s : ProjectState) :
    objLookup (get_project_info s) "signature_denominator" = some (.int 4)
  ∧ (∀ d : Int, get_project_info { s with sigDenominator := d } = get_project_info s)
  ∧ objLookup (get_project_info s) "is_playing" =
      some (.bool (s.playState &&& 1 != 0))
  ∧ objLookup (get_project_info s) "is_recording" =
      some (.bool (s.playState &&& 4 != 0)) :=
  ⟨rfl, fun _ => rfl, rfl, rfl⟩

theorem foldl_insert (s : ProjectState) (notes : List NoteInput)
    (base : List MidiNote) :
    notes.foldl (fun acc n => acc ++ [fillNote s n]) base =
      base ++ notes.map (fillNote s) := by
  induction notes generalizing base with
  | nil => simp
  | cons n rest ih => simp [ih]

theorem trackItems_updateTakeNotes (s : ProjectState) (t i : Nat)
    (ns : List MidiNote) :
    trackItems (updateTakeNotes s t i ns) t =
      modifyIdx (trackItems s t) i (itemWithNotes ns) := by
  unfold trackItems updateTakeNotes
  rw [getElem?_modifyIdx_self]
  cases h : s.tracks[t]? with
  | none => simp [h, modifyIdx]
  | some tr => simp [h, trackWithItems]

theorem itemTake_updateTakeNotes (s : ProjectState) (t i : Nat)
    (ns : List MidiNote) :
    itemTake (updateTakeNotes s t i ns) t i =
      (itemTake s t i).map (takeWithNotes ns) := by
  unfold itemTake
  rw [trackItems_updateTakeNotes, getElem?_modifyIdx_self]
  cases h : (trackItems s t)[i]? with
  | none => simp [h]
  | some it => simp [h, itemWithNotes]

theorem get_track_ok (s : ProjectState) (ti : Int)
    (h0 : 0 ≤ ti) (h1 : ti < CountTracks s) :
    get_track s ti = .ok ti.toNat := by
  unfold get_track
  rw [if_neg (by omega)]

theorem get_item_ok (s : ProjectState) (ti ii : Int)
    (h0 : 0 ≤ ti) (h1 : ti < CountTracks s)
    (h2 : 0 ≤ ii) (h3 : ii < ((trackItems s ti.toNat).length : Int)) :
    get_item s ti ii = .ok (ti.toNat, ii.toNat) := by
  have hcond : ¬(ii < 0 ∨ ((trackItems s ti.toNat).length : Int) ≤ ii) := by omega
  simp [get_item, get_track_ok s ti h0 h1, hcond]

theorem get_active_take_ok_aux (s : ProjectState) (ti ii : Int) (tk : Take)
    (h0 : 0 ≤ ti) (h1 : ti < CountTracks s)
    (h2 : 0 ≤ ii) (h3 : ii < ((trackItems s ti.toNat).length : Int))
    (htk : itemTake s ti.toNat ii.toNat = some tk) :
    get_active_take s ti ii = .ok (ti.toNat, ii.toNat, tk) := by
  simp [get_active_take, get_item_ok s ti ii h0 h1 h2 h3, htk]

theorem readNote_fillNote (s : ProjectState) (n : NoteInput)
    (h1 : ∀ t, s.tempoMap.timeFromPpq (s.tempoMap.ppqFromTime t) = t)
    (h2 : ∀ b, s.tempoMap.timeToQN (s.tempoMap.qnToTime b) = b) :
    readNote s (fillNote s n) =
      { pitch := n.pitch.getD 60, start_time := n.start_time.getD 0,
        duration := n.duration.getD (1/2), velocity := n.velocity.getD 100,
        mute := n.mute.getD false } := by
  simp [readNote, fillNote, ppq_to_beats, beats_to_ppq, beats_to_time,
    time_to_beats, h1, h2, add_sub_cancel_left]

theorem readNote_updateTakeNotes (s : ProjectState) (t i : Nat)
    (ns : List MidiNote) :
    readNote (updateTakeNotes s t i ns) = readNote s := rfl

/-- C4. Writing a note list with `set_item_notes` in replace mode to a
MIDI take and reading back with `get_item_notes` returns exactly the
written notes (defaults filled): same pitch, velocity and mute per note,
and start/duration in beats equal to the written values, exactly when the
tempo-map conversion primitives are mutually inverse. The read-back list
is a permutation because `MIDI_Sort` reorders events by start position. -/
theorem set_get_item_notes_roundtrip (s : ProjectState) (ti ii : Int)
    (notes : List NoteInput) (tk : Take)
    (h1 : ∀ t, s.tempoMap.timeFromPpq (s.tempoMap.ppqFromTime t) = t)
    (h2 : ∀ b, s.tempoMap.timeToQN (s.tempoMap.qnToTime b) = b)
    (hti0 : 0 ≤ ti) (hti1 : ti < CountTracks s)
    (hii0 : 0 ≤ ii) (hii1 : ii < ((trackItems s ti.toNat).length : Int))
    (htk : itemTake s ti.toNat ii.toNat = some tk)
    (hmidi : tk.isMidi = true) :
    ∃ s1, set_item_notes s ti ii notes false =
        .ok (.obj [("notes_set", .int (notes.length : Int))], s1)
      ∧ ∃ outs : List NoteOut,
          get_item_notes s1 ti ii =
            .ok (.obj [("notes", .arr (outs.map noteOutJson))])
        ∧ outs.Perm (notes.map (fun n =>
            { pitch := n.pitch.getD 60, start_time := n.start_time.getD 0,
              duration := n.duration.getD (1/2), velocity := n.velocity.getD 100,
              mute := n.mute.getD false })) := by
  have hgat := get_active_take_ok_aux s ti ii tk hti0 hti1 hii0 hii1 htk
  refine ⟨updateTakeNotes s ti.toNat ii.toNat
    ((notes.map (fillNote s)).mergeSort midiLe), ?_, ?_⟩
  · simp [set_item_notes, hgat, hmidi,
      deleteLoop_all tk.notes.length tk.notes rfl, foldl_insert]
  · have hlen1 : CountTracks (updateTakeNotes s ti.toNat ii.toNat
        ((notes.map (fillNote s)).mergeSort midiLe)) = CountTracks s := by
      simp [CountTracks, updateTakeNotes, modifyIdx_length]
    have hitems : (trackItems (updateTakeNotes s ti.toNat ii.toNat
        ((notes.map (fillNote s)).mergeSort midiLe)) ti.toNat).length =
        (trackItems s ti.toNat).length := by
      rw [trackItems_updateTakeNotes, modifyIdx_length]
    have htk1 : itemTake (updateTakeNotes s ti.toNat ii.toNat
        ((notes.map (fillNote s)).mergeSort midiLe)) ti.toNat ii.toNat =
        some (takeWithNotes ((notes.map (fillNote s)).mergeSort midiLe) tk) := by
      rw [itemTake_updateTakeNotes, htk]
      rfl
    have hgat1 := get_active_take_ok_aux
      (updateTakeNotes s ti.toNat ii.toNat ((notes.map (fillNote s)).mergeSort midiLe))
      ti ii (takeWithNotes ((notes.map (fillNote s)).mergeSort midiLe) tk)
      hti0 (by rw [hlen1]; exact hti1) hii0 (by rw [hitems]; exact hii1) htk1
    refine ⟨((notes.map (fillNote s)).mergeSort midiLe).map (readNote s), ?_, ?_⟩
    · simp [get_item_notes, hgat1, takeWithNotes, hmidi, readNote_updateTakeNotes]
    · have hperm := List.mergeSort_perm (notes.map (fillNote s)) midiLe
      have heq : (notes.map (fillNote s)).map (readNote s) = notes.map (fun n =>
          ({ pitch := n.pitch.getD 60, start_time := n.start_time.getD 0,
             duration := n.duration.getD (1/2), velocity := n.velocity.getD 100,
             mute := n.mute.getD false } : NoteOut)) := by
        rw [List.map_map]
        apply List.map_congr_left
        intro n _
        exact readNote_fillNote s n h1 h2
      exact (hperm.map (readNote s)).trans (heq ▸ List.Perm.refl _)

def oneNote : NoteInput :=
  { pitch := some 64, start_time := some 1, duration := some 1,
    velocity := some 90, mute := some false }

theorem set_get_item_notes_roundtrip_witness :
    (∀ t, demoProject.tempoMap.timeFromPpq (demoProject.tempoMap.ppqFromTime t) = t) ∧
    ∃ s1, set_item_notes demoProject 0 0 [oneNote] false =
        .ok (.obj [("notes_set", .int 1)], s1)
      ∧ ∃ outs : List NoteOut,
          get_item_notes s1 0 0 = .ok (.obj [("notes", .arr (outs.map noteOutJson))])
        ∧ outs.Perm [{ pitch := 64, start_time := 1, duration := 1,
                       velocity := 90, mute := false }] := by
  refine ⟨fun _ => rfl, ?_⟩
  have h := set_get_item_notes_roundtrip demoProject 0 0 [oneNote] demoTake
    (fun _ => rfl) (fun _ => rfl) (by decide) (by decide) (by decide) (by decide)
    rfl rfl
  simpa using h

/-- C10. Missing fields of a note mapping are filled with the fixed
defaults pitch 60, start 0.0, duration 0.5, velocity 100, mute false
before insertion; the inserted note is spelled out explicitly. -/
theorem set_item_notes_defaults (s : ProjectState) (ti ii : Int)
    (n : NoteInput) (tk : Take)
    (hti0 : 0 ≤ ti) (hti1 : ti < CountTracks s)
    (hii0 : 0 ≤ ii) (hii1 : ii < ((trackItems s ti.toNat).length : Int))
    (htk : itemTake s ti.toNat ii.toNat = some tk)
    (hmidi : tk.isMidi = true) :
    set_item_notes s ti ii [n] false =
      .ok (.obj [("notes_set", .int 1)],
        updateTakeNotes s ti.toNat ii.toNat
          [{ selected := false, muted := n.mute.getD false,
             startPpq := beats_to_ppq s (n.start_time.getD 0),
             endPpq := beats_to_ppq s (n.start_time.getD 0 + n.duration.getD (1/2)),
             chan := 0, pitch := n.pitch.getD 60, vel := n.velocity.getD 100 }]) := by
  have hgat := get_active_take_ok_aux s ti ii tk hti0 hti1 hii0 hii1 htk
  simp [set_item_notes, hgat, hmidi, deleteLoop_all tk.notes.length tk.notes rfl,
    foldl_insert, fillNote]

def emptyNoteInput : NoteInput :=
  { pitch := none, start_time := none, duration := none, velocity := none,
    mute := none }

theorem set_item_notes_defaults_witness :
    set_item_notes demoProject 0 0 [emptyNoteInput] false =
      .ok (.obj [("notes_set", .int 1)],
        updateTakeNotes demoProject 0 0
          [{ selected := false, muted := false,
             startPpq := beats_to_ppq demoProject 0,
             endPpq := beats_to_ppq demoProject (0 + 1/2),
             chan := 0, pitch := 60, vel := 100 }]) :=
  set_item_notes_defaults demoProject 0 0 emptyNoteInput demoTake
    (by decide) (by decide) (by decide) (by decide) rfl rfl
